import Mathlib

/-!
Verification development for the `catalog` application data model
(`src/catalog/models.py`, `src/catalog/admin.py`).

The Django model declarations are shallowly embedded as Lean structures and
executable functions.  Dates are embedded as integers (only their ordering is
relevant), the auto-generated integer primary keys as `Nat`, and the UUID
primary key of `BookInstance` as a `String` (only its rendered form and
identity are relevant).  Declarative field options (`unique=True`,
`max_length=...`, `choices=...`, `blank=True`, `default=...`) and declarative
referential actions (`on_delete=SET_NULL` / `RESTRICT`) are embedded as the
validation predicates and state-transition functions Django derives from them:
each such function carries a doc comment naming the declaration it embeds.
-/

namespace Catalog

/-- Calendar dates, embedded as integers: only their linear order matters
for the model (`due_back` comparisons in `is_overdue` and ordering). -/
abbrev Date := Int

/-- `class Genre(models.Model)`: `name = models.CharField(max_length=200)`.
`id` is Django's implicit auto primary key. -/
structure Genre where
  id : Nat
  name : String
deriving DecidableEq, Repr

/-- `class Language(models.Model)`: `name = models.CharField(max_length=200)`.
`id` is Django's implicit auto primary key. -/
structure Language where
  id : Nat
  name : String
deriving DecidableEq, Repr

/-- `class Author(models.Model)`: `first_name`, `last_name` (CharFields),
`date_of_birth`, `date_of_death` (DateFields with `null=True, blank=True`,
embedded as `Option Date`).  `id` is Django's implicit auto primary key. -/
structure Author where
  id : Nat
  first_name : String
  last_name : String
  date_of_birth : Option Date := none
  date_of_death : Option Date := none
deriving DecidableEq, Repr

/-- `class Book(models.Model)`: `title` (CharField), `author` (ForeignKey to
Author, `null=True`, embedded as the referenced author's primary key),
`summary` (TextField), `isbn` (CharField), `genre` (ManyToManyField to Genre,
embedded as the list of related genre primary keys in relation iteration
order), `language` (ForeignKey to Language, `null=True`).
`id` is Django's implicit auto primary key. -/
structure Book where
  id : Nat
  title : String
  author : Option Nat := none
  summary : String := ""
  isbn : String
  genre : List Nat := []
  language : Option Nat := none
deriving DecidableEq, Repr

/-- `class BookInstance(models.Model)`: `id` (UUIDField primary key, embedded
as its rendered string), `book` (ForeignKey to Book, not nullable, embedded as
the referenced book's primary key), `imprint` (CharField), `due_back`
(DateField, `null=True, blank=True`), `borrower` (ForeignKey to User,
`null=True, blank=True`, embedded as the user's primary key), `status`
(CharField of one character). -/
structure BookInstance where
  id : String
  book : Nat
  imprint : String := ""
  due_back : Option Date := none
  borrower : Option Nat := none
  status : String := "m"
deriving DecidableEq, Repr

/-- The stored catalog: one table per model, plus the user accounts of
`django.contrib.auth` that `BookInstance.borrower` references (embedded as
their primary keys only). -/
structure CatalogState where
  genres : List Genre := []
  languages : List Language := []
  authors : List Author := []
  books : List Book := []
  instances : List BookInstance := []
  users : List Nat := []
deriving DecidableEq, Repr

/-- Resolve a Book foreign key in the stored state. -/
def findBook (s : CatalogState) (bid : Nat) : Option Book :=
  s.books.find? (fun b => b.id == bid)

/-! ## String representations (`__str__`) -/

/-- `Genre.__str__`: `return self.name`. -/
def Genre.str (g : Genre) : String :=
  g.name

/-- `Language.__str__`: `return self.name`. -/
def Language.str (l : Language) : String :=
  l.name

/-- `Book.__str__`: `return self.title`. -/
def Book.str (b : Book) : String :=
  b.title

/-- `Author.__str__`: the f-string `f'{self.last_name}, {self.first_name}'`. -/
def Author.str (a : Author) : String :=
  a.last_name ++ ", " ++ a.first_name

/-- `BookInstance.__str__`: the f-string `f'{self.id} ({self.book.title})'`.
The `self.book` attribute access resolves the foreign key against the stored
state, hence the `CatalogState` argument; it yields `none` only if the
reference is dangling (which the RESTRICT action prevents). -/
def BookInstance.str (s : CatalogState) (bi : BookInstance) : Option String :=
  (findBook s bi.book).map (fun b => bi.id ++ " (" ++ b.title ++ ")")

/-! ## `Book.display_genre` -/

/-- Python's `sep.join(iterable)`: the elements concatenated with `sep`
between consecutive elements, `''` for an empty iterable. -/
def pyJoin (sep : String) : List String → String
  | [] => ""
  | [x] => x
  | x :: y :: xs => x ++ sep ++ pyJoin sep (y :: xs)

/-- `Book.display_genre`:
`return ', '.join(genre.name for genre in self.genre.all()[:3])`.
`genres` is the sequence of related Genre rows in the order the
many-to-many relation `self.genre.all()` yields them; `[:3]` is `List.take 3`
and the generator extracts each genre's `name`. -/
def Book.display_genre (genres : List Genre) : String :=
  pyJoin ", " ((genres.take 3).map Genre.name)

/-! ## `BookInstance.is_overdue` -/

/-- `BookInstance.is_overdue`:
`return self.due_back and date.today() > self.due_back`.
`date.today()` is the evaluation date, passed as `today`.  The Python
expression returns `None` (falsy) when `due_back` is `None` — a `date` object
is always truthy — and otherwise the boolean `today > due_back`; the result
here is the truthiness of that returned value. -/
def BookInstance.is_overdue (bi : BookInstance) (today : Date) : Bool :=
  match bi.due_back with
  | none => false
  | some d => decide (today > d)

/-! ## Field validation derived from field options -/

/-- `BookInstance.LOAN_STATUS` choice keys:
`(('m', 'Maintenance'), ('o', 'On loan'), ('a', 'Available'), ('r', 'Reserved'))`. -/
def LOAN_STATUS : List String := ["m", "o", "a", "r"]

/-- `default='m'` on `BookInstance.status`. -/
def defaultStatus : String := "m"

/-- Validation of the `status` field, from its declaration
`models.CharField(max_length=1, choices=LOAN_STATUS, blank=True, default='m')`:
Django's `Field.validate` rejects a value with choices declared unless it is
one of the choice keys, but `blank=True` additionally admits the empty
value. -/
def validStatusField (st : String) : Bool :=
  LOAN_STATUS.contains st || st == ""

/-- Creating a `BookInstance` with the `status` argument omitted: Django
substitutes the field's declared default. -/
def newBookInstance (id : String) (book : Nat) (imprint : String)
    (due_back : Option Date) (borrower : Option Nat)
    (status : Option String) : BookInstance :=
  { id := id, book := book, imprint := imprint, due_back := due_back,
    borrower := borrower, status := status.getD defaultStatus }

/-- `max_length=13` on `Book.isbn = models.CharField('ISBN', max_length=13,
unique=True, ...)`: Django's `MaxLengthValidator` accepts any string of at
most 13 characters; no exact-length or minimum-length validator is
declared. -/
def validIsbnField (isbn : String) : Bool :=
  decide (isbn.length ≤ 13)

/-- Whole-Book validation against the stored state, as the admin runs it
(model validation plus the form's own checks), derived from the `Book` field
declarations: `blank=False` (the default) makes `title`, `summary` and `isbn`
required, so the empty value is rejected for each; the admin form likewise
requires at least one `genre` selection; the `MaxLengthValidator`s bound
`title` (200), `summary` (1000) and `isbn` (13); and `unique=True` on `isbn`
induces the uniqueness check.  `excluding` is the primary key of the row
being updated (`none` on creation), which Django excludes from its own
uniqueness check. -/
def bookValid (books : List Book) (excluding : Option Nat) (b : Book) : Bool :=
  !(b.title == "") && !(b.summary == "") && !(b.isbn == "") && !(b.genre.isEmpty) &&
  decide (b.title.length ≤ 200) && decide (b.summary.length ≤ 1000) &&
  validIsbnField b.isbn &&
  !(books.any (fun b0 => b0.isbn == b.isbn && some b0.id != excluding))

/-! ## CRUD transitions derived from the declarations

Each administrative operation is a single transaction: a rejected operation
(`none`) leaves the stored state unchanged. -/

/-- Creating a Book through the admin: validated, then appended.
Rejection (a `ValidationError`, e.g. a duplicate `isbn`) yields `none`. -/
def createBook (s : CatalogState) (b : Book) : Option CatalogState :=
  if bookValid s.books none b then
    some { s with books := s.books ++ [b] }
  else
    none

/-- Updating the Book with primary key `bid` through the admin: validated
(excluding the row itself from the uniqueness check), then replaced in
place.  Rejection yields `none`. -/
def updateBook (s : CatalogState) (bid : Nat) (b : Book) : Option CatalogState :=
  if bookValid s.books (some bid) b then
    some { s with
      books := s.books.map (fun b0 =>
        if b0.id == bid then { b with id := bid } else b0) }
  else
    none

/-- Deleting a Book: `BookInstance.book` declares `on_delete=models.RESTRICT`,
so the delete raises `RestrictedError` (here `none`, state unchanged) while
any BookInstance references the book; otherwise the row is removed. -/
def deleteBook (s : CatalogState) (bid : Nat) : Option CatalogState :=
  if s.instances.any (fun bi => bi.book == bid) then
    none
  else
    some { s with books := s.books.filter (fun b => b.id != bid) }

/-- Deleting an Author: `Book.author` declares `on_delete=models.SET_NULL,
null=True`, so the delete always succeeds and every referencing Book has its
`author` cleared to null; the Books themselves are kept. -/
def deleteAuthor (s : CatalogState) (aid : Nat) : CatalogState :=
  { s with
    authors := s.authors.filter (fun a => a.id != aid),
    books := s.books.map (fun b =>
      if b.author == some aid then { b with author := none } else b) }

/-- Deleting a Language: `Book.language` declares `on_delete=models.SET_NULL,
null=True`, so the delete always succeeds and every referencing Book has its
`language` cleared to null; the Books themselves are kept. -/
def deleteLanguage (s : CatalogState) (lid : Nat) : CatalogState :=
  { s with
    languages := s.languages.filter (fun l => l.id != lid),
    books := s.books.map (fun b =>
      if b.language == some lid then { b with language := none } else b) }

/-- Deleting a borrower user account: `BookInstance.borrower` declares
`on_delete=models.SET_NULL, null=True`, so the delete always succeeds and
every referencing BookInstance has its `borrower` cleared to null; the
BookInstances themselves are kept. -/
def deleteUser (s : CatalogState) (uid : Nat) : CatalogState :=
  { s with
    users := s.users.filter (fun u => u != uid),
    instances := s.instances.map (fun bi =>
      if bi.borrower == some uid then { bi with borrower := none } else bi) }

/-! ## Listing order derived from `Meta.ordering` -/

/-- Resolve an Author foreign key in the stored state. -/
def findAuthor (s : CatalogState) (aid : Nat) : Option Author :=
  s.authors.find? (fun a => a.id == aid)

/-- The sort key Django uses when `Book.Meta.ordering` names the relation
field `author`: ordering by a ForeignKey follows the related model's default
ordering, here `Author.Meta.ordering = ['last_name', 'first_name']`.  A book
with no author contributes the null key (the joined columns are NULL). -/
def authorOrderKey (s : CatalogState) (b : Book) : Option (String × String) :=
  b.author.bind (fun aid => (findAuthor s aid).map (fun a => (a.last_name, a.first_name)))

/-- Ascending order on the nullable (last_name, first_name) key: nulls
first, then lexicographically by last name, then first name (only the
relative order of non-null keys is contractual, see the ordering
theorems). -/
def optNameLE : Option (String × String) → Option (String × String) → Bool
  | none, _ => true
  | some _, none => false
  | some p, some q => decide (p.1 < q.1) || (p.1 == q.1 && decide (p.2 ≤ q.2))

/-- Ascending order on a nullable date column, nulls first. -/
def optDateLE : Option Date → Option Date → Bool
  | none, _ => true
  | some _, none => false
  | some a, some b => decide (a ≤ b)

/-- `Book.Meta.ordering = ['title', 'author']`: by title, then by the
`author` relation, which follows the related model's default ordering
`Author.Meta.ordering = ['last_name', 'first_name']`. -/
def bookLE (s : CatalogState) (a b : Book) : Bool :=
  decide (a.title < b.title) ||
    (a.title == b.title && optNameLE (authorOrderKey s a) (authorOrderKey s b))

/-- `Author.Meta.ordering = ['last_name', 'first_name']`. -/
def authorLE (a b : Author) : Bool :=
  decide (a.last_name < b.last_name) ||
    (a.last_name == b.last_name && decide (a.first_name ≤ b.first_name))

/-- `BookInstance.Meta.ordering = ['due_back']`. -/
def instanceLE (a b : BookInstance) : Bool :=
  optDateLE a.due_back b.due_back

/-- Listing Books: the default queryset sorts by `Book.Meta.ordering`. -/
def listBooks (s : CatalogState) : List Book :=
  s.books.mergeSort (bookLE s)

/-- Listing Authors: the default queryset sorts by `Author.Meta.ordering`. -/
def listAuthors (s : CatalogState) : List Author :=
  s.authors.mergeSort authorLE

/-- Listing BookInstances: the default queryset sorts by
`BookInstance.Meta.ordering`. -/
def listBookInstances (s : CatalogState) : List BookInstance :=
  s.instances.mergeSort instanceLE

/-- Follows the spec's words for `display_genre`: "a comma-joined string of
up to the first 3 genre names associated with a Book" — stated with the
standard library join, to be compared with the source embedding. -/
def specDisplayGenre (names : List String) : String :=
  String.intercalate ", " (names.take 3)

/-! ## Helper lemmas -/

lemma pyJoin_append (sep x y : String) (l : List String) :
    pyJoin sep ((x ++ y) :: l) = x ++ pyJoin sep (y :: l) := by
  cases l with
  | nil => simp [pyJoin]
  | cons a as => simp [pyJoin, String.append_assoc]

lemma intercalate_go_eq (sep : String) : ∀ (l : List String) (acc : String),
    String.intercalate.go acc sep l = pyJoin sep (acc :: l) := by
  intro l
  induction l with
  | nil =>
      intro acc
      simp [String.intercalate.go, pyJoin]
  | cons a as ih =>
      intro acc
      rw [String.intercalate.go, ih]
      rw [show acc ++ sep ++ a = acc ++ (sep ++ a) by simp [String.append_assoc]]
      rw [pyJoin_append]
      cases as with
      | nil => simp [pyJoin, String.append_assoc]
      | cons b bs => simp [pyJoin, String.append_assoc]

/-- Python's join coincides with the standard library's `intercalate`. -/
lemma pyJoin_eq_intercalate (sep : String) (l : List String) :
    pyJoin sep l = String.intercalate sep l := by
  cases l with
  | nil => rfl
  | cons a as => rw [String.intercalate, intercalate_go_eq]

lemma optNameLE_trans (a b c : Option (String × String)) :
    optNameLE a b = true → optNameLE b c = true → optNameLE a c = true := by
  cases a <;> cases b <;> cases c <;>
    simp only [optNameLE, Bool.or_eq_true, decide_eq_true_eq, Bool.and_eq_true,
      beq_iff_eq, Bool.false_eq_true, false_implies, implies_true, true_implies]
  rintro (h1 | ⟨e1, h1⟩) (h2 | ⟨e2, h2⟩)
  · exact Or.inl (lt_trans h1 h2)
  · exact Or.inl (e2 ▸ h1)
  · exact Or.inl (e1 ▸ h2)
  · exact Or.inr ⟨e1.trans e2, le_trans h1 h2⟩

lemma optNameLE_total (a b : Option (String × String)) :
    (optNameLE a b || optNameLE b a) = true := by
  cases a with
  | none => rfl
  | some p =>
      cases b with
      | none => rfl
      | some q =>
          simp only [optNameLE, Bool.or_eq_true, decide_eq_true_eq,
            Bool.and_eq_true, beq_iff_eq]
          rcases lt_trichotomy p.1 q.1 with h | h | h
          · exact Or.inl (Or.inl h)
          · rcases le_total p.2 q.2 with h2 | h2
            · exact Or.inl (Or.inr ⟨h, h2⟩)
            · exact Or.inr (Or.inr ⟨h.symm, h2⟩)
          · exact Or.inr (Or.inl h)

lemma optNameLE_iff (a b : Option (String × String)) :
    optNameLE a b = true ↔
      a = none ∨ ∃ p q, a = some p ∧ b = some q ∧
        (p.1 < q.1 ∨ (p.1 = q.1 ∧ p.2 ≤ q.2)) := by
  cases a <;> cases b <;> simp [optNameLE]

lemma optDateLE_trans (a b c : Option Date) :
    optDateLE a b = true → optDateLE b c = true → optDateLE a c = true := by
  cases a <;> cases b <;> cases c <;> simp [optDateLE]
  exact fun h1 h2 => le_trans h1 h2

lemma optDateLE_total (a b : Option Date) :
    (optDateLE a b || optDateLE b a) = true := by
  cases a <;> cases b <;> simp [optDateLE]
  exact le_total _ _

lemma optDateLE_iff (a b : Option Date) :
    optDateLE a b = true ↔
      a = none ∨ ∃ x y, a = some x ∧ b = some y ∧ x ≤ y := by
  cases a <;> cases b <;> simp [optDateLE]

lemma bookLE_trans (s : CatalogState) (a b c : Book) :
    bookLE s a b = true → bookLE s b c = true → bookLE s a c = true := by
  simp only [bookLE, Bool.or_eq_true, decide_eq_true_eq, Bool.and_eq_true,
    beq_iff_eq]
  rintro (h1 | ⟨e1, h1⟩) (h2 | ⟨e2, h2⟩)
  · exact Or.inl (lt_trans h1 h2)
  · exact Or.inl (e2 ▸ h1)
  · exact Or.inl (e1 ▸ h2)
  · exact Or.inr ⟨e1.trans e2, optNameLE_trans _ _ _ h1 h2⟩

lemma bookLE_total (s : CatalogState) (a b : Book) :
    (bookLE s a b || bookLE s b a) = true := by
  simp only [bookLE, Bool.or_eq_true, decide_eq_true_eq, Bool.and_eq_true,
    beq_iff_eq]
  rcases lt_trichotomy a.title b.title with h | h | h
  · exact Or.inl (Or.inl h)
  · rcases Bool.or_eq_true _ _ |>.mp
      (optNameLE_total (authorOrderKey s a) (authorOrderKey s b)) with h2 | h2
    · exact Or.inl (Or.inr ⟨h, h2⟩)
    · exact Or.inr (Or.inr ⟨h.symm, h2⟩)
  · exact Or.inr (Or.inl h)

lemma authorLE_trans (a b c : Author) :
    authorLE a b = true → authorLE b c = true → authorLE a c = true := by
  simp only [authorLE, Bool.or_eq_true, decide_eq_true_eq, Bool.and_eq_true,
    beq_iff_eq]
  rintro (h1 | ⟨e1, h1⟩) (h2 | ⟨e2, h2⟩)
  · exact Or.inl (lt_trans h1 h2)
  · exact Or.inl (e2 ▸ h1)
  · exact Or.inl (e1 ▸ h2)
  · exact Or.inr ⟨e1.trans e2, le_trans h1 h2⟩

lemma authorLE_total (a b : Author) : (authorLE a b || authorLE b a) = true := by
  simp only [authorLE, Bool.or_eq_true, decide_eq_true_eq, Bool.and_eq_true,
    beq_iff_eq]
  rcases lt_trichotomy a.last_name b.last_name with h | h | h
  · exact Or.inl (Or.inl h)
  · rcases le_total a.first_name b.first_name with h2 | h2
    · exact Or.inl (Or.inr ⟨h, h2⟩)
    · exact Or.inr (Or.inr ⟨h.symm, h2⟩)
  · exact Or.inr (Or.inl h)

lemma instanceLE_trans (a b c : BookInstance) :
    instanceLE a b = true → instanceLE b c = true → instanceLE a c = true := by
  simp only [instanceLE]
  exact optDateLE_trans _ _ _

lemma instanceLE_total (a b : BookInstance) :
    (instanceLE a b || instanceLE b a) = true := by
  simp only [instanceLE]
  exact optDateLE_total _ _

/-! ## Claim theorems -/

/-- Claim C1: `is_overdue` evaluates truthy exactly when `due_back` is set
and strictly before the evaluation date; when `due_back` is unset, or set to
the evaluation date or later, it evaluates falsy. -/
theorem is_overdue_iff_due_back_before_today (bi : BookInstance) (today : Date) :
    bi.is_overdue today = true ↔ ∃ d, bi.due_back = some d ∧ d < today := by
  cases h : bi.due_back <;> simp [BookInstance.is_overdue, h]

/-- Claim C2: `display_genre` returns the names of at most the first 3
genres associated with the Book, in relation order, joined with the exact
separator ", "; in particular genres `[A, B, C, D]` yield `"A, B, C"`. -/
theorem display_genre_first_three_comma_joined (genres : List Genre) :
    Book.display_genre genres = specDisplayGenre (genres.map Genre.name)
  ∧ ∀ a b c d : Genre, Book.display_genre [a, b, c, d] =
      a.name ++ ", " ++ b.name ++ ", " ++ c.name := by
  constructor
  · unfold Book.display_genre specDisplayGenre
    rw [pyJoin_eq_intercalate, List.map_take]
  · intro a b c d
    simp [Book.display_genre, pyJoin, String.append_assoc]

/-- Claim C10: `display_genre` on a Book with no associated genres returns
the empty string (Python's `', '.join` of an empty iterable), not an error
and not an absent value. -/
theorem display_genre_no_genres : Book.display_genre [] = "" := rfl

/-- Claim C3: deleting a Book is rejected — `RestrictedError`, no state
change, here `none` — when at least one BookInstance references it, and
succeeds, removing exactly that row, when none does. -/
theorem deleteBook_restrict (s : CatalogState) (bid : Nat) :
    ((∃ bi ∈ s.instances, bi.book = bid) → deleteBook s bid = none)
  ∧ ((∀ bi ∈ s.instances, bi.book ≠ bid) →
      deleteBook s bid =
        some { s with books := s.books.filter (fun b => b.id != bid) }) := by
  constructor
  · rintro ⟨bi, hm, hb⟩
    have h : s.instances.any (fun bi => bi.book == bid) = true :=
      List.any_eq_true.mpr ⟨bi, hm, by simp [hb]⟩
    simp [deleteBook, h]
  · intro h
    have h2 : s.instances.any (fun bi => bi.book == bid) = false := by
      rw [List.any_eq_false]
      intro bi hm
      simp [h bi hm]
    simp [deleteBook, h2]

/-- Witness for C3: on a one-book catalog, the delete is rejected while a
copy exists and succeeds once no copy references the book. -/
theorem deleteBook_restrict_witness :
    deleteBook { books := [{ id := 1, title := "T", isbn := "9781851244249" }],
                 instances := [{ id := "u1", book := 1 }] } 1 = none
  ∧ deleteBook { books := [{ id := 1, title := "T", isbn := "9781851244249" }] } 1 =
      some {} := by
  refine ⟨(deleteBook_restrict _ 1).1 ⟨{ id := "u1", book := 1 }, by decide, rfl⟩, ?_⟩
  have h := (deleteBook_restrict
    { books := [{ id := 1, title := "T", isbn := "9781851244249" }] } 1).2 (by decide)
  exact h.trans (by decide)

/-- Claim C4: deleting an Author, a Language, or a borrower user account
always succeeds (the transitions are total); afterwards the referencing rows
are all still present, in place, and the row at each position is the old one
with its `author` / `language` / `borrower` field set to `none` exactly when
it pointed at the deleted id and entirely unchanged otherwise; the deleted
row itself is gone. -/
theorem delete_author_language_user_set_null (s : CatalogState) (aid lid uid : Nat) :
    ((deleteAuthor s aid).books.length = s.books.length
      ∧ (∀ (i : Nat) (b0 : Book), s.books[i]? = some b0 →
          (deleteAuthor s aid).books[i]? =
            some (if b0.author = some aid then { b0 with author := none } else b0))
      ∧ (deleteAuthor s aid).authors.all (fun a => a.id != aid) = true)
  ∧ ((deleteLanguage s lid).books.length = s.books.length
      ∧ (∀ (i : Nat) (b0 : Book), s.books[i]? = some b0 →
          (deleteLanguage s lid).books[i]? =
            some (if b0.language = some lid then { b0 with language := none } else b0))
      ∧ (deleteLanguage s lid).languages.all (fun l => l.id != lid) = true)
  ∧ ((deleteUser s uid).instances.length = s.instances.length
      ∧ (∀ (i : Nat) (c0 : BookInstance), s.instances[i]? = some c0 →
          (deleteUser s uid).instances[i]? =
            some (if c0.borrower = some uid then { c0 with borrower := none } else c0))
      ∧ (deleteUser s uid).users.all (fun u => u != uid) = true) := by
  refine ⟨⟨?_, ?_, ?_⟩, ⟨?_, ?_, ?_⟩, ⟨?_, ?_, ?_⟩⟩
  · simp [deleteAuthor]
  · intro i b0 h
    simp only [deleteAuthor]
    rw [List.getElem?_map, h]
    by_cases hc : b0.author = some aid
    · simp [hc]
    · simp [hc]
  · rw [List.all_eq_true]
    intro a ha
    exact (List.mem_filter.mp ha).2
  · simp [deleteLanguage]
  · intro i b0 h
    simp only [deleteLanguage]
    rw [List.getElem?_map, h]
    by_cases hc : b0.language = some lid
    · simp [hc]
    · simp [hc]
  · rw [List.all_eq_true]
    intro l hl
    exact (List.mem_filter.mp hl).2
  · simp [deleteUser]
  · intro i c0 h
    simp only [deleteUser]
    rw [List.getElem?_map, h]
    by_cases hc : c0.borrower = some uid
    · simp [hc]
    · simp [hc]
  · rw [List.all_eq_true]
    intro u hu
    exact (List.mem_filter.mp hu).2

/-- Witness for C4: in a catalog with one author (id 7), one language (id 9)
and one borrower (id 5), deleting each clears exactly the references that
pointed at it — the book keeps its place with `author` (resp. `language`)
now `none`, the copy keeps its place with `borrower` now `none`. -/
theorem delete_author_language_user_set_null_witness :
    (deleteAuthor
        { authors := [{ id := 7, first_name := "F", last_name := "N" }],
          books := [{ id := 1, title := "T", author := some 7, isbn := "1111111111111",
                      language := some 9 }] } 7).books[0]? =
      some { id := 1, title := "T", author := none, isbn := "1111111111111",
             language := some 9 }
  ∧ (deleteLanguage
        { languages := [{ id := 9, name := "En" }],
          books := [{ id := 1, title := "T", author := some 7, isbn := "1111111111111",
                      language := some 9 }] } 9).books[0]? =
      some { id := 1, title := "T", author := some 7, isbn := "1111111111111",
             language := none }
  ∧ (deleteUser
        { instances := [{ id := "u1", book := 1, borrower := some 5 }],
          users := [5] } 5).instances[0]? =
      some { id := "u1", book := 1, borrower := none } := by
  refine ⟨?_, ?_, ?_⟩
  · exact ((delete_author_language_user_set_null
      { authors := [{ id := 7, first_name := "F", last_name := "N" }],
        books := [{ id := 1, title := "T", author := some 7, isbn := "1111111111111",
                    language := some 9 }] } 7 0 0).1.2.1 0
      { id := 1, title := "T", author := some 7, isbn := "1111111111111",
        language := some 9 } (by decide)).trans (by decide)
  · exact ((delete_author_language_user_set_null
      { languages := [{ id := 9, name := "En" }],
        books := [{ id := 1, title := "T", author := some 7, isbn := "1111111111111",
                    language := some 9 }] } 0 9 0).2.1.2.1 0
      { id := 1, title := "T", author := some 7, isbn := "1111111111111",
        language := some 9 } (by decide)).trans (by decide)
  · exact ((delete_author_language_user_set_null
      { instances := [{ id := "u1", book := 1, borrower := some 5 }],
        users := [5] } 0 0 5).2.2.2.1 0
      { id := "u1", book := 1, borrower := some 5 } (by decide)).trans (by decide)

/-- Claim C5: stored isbn values are pairwise distinct — creating or updating
a Book with an isbn equal to that of another existing Book is rejected as a
validation error (`none`, so the stored state is unchanged), and a successful
creation preserves pairwise distinctness of stored isbns. -/
theorem isbn_unique_validation (s : CatalogState) (b nb : Book) (bid : Nat)
    (s2 : CatalogState) :
    ((∃ b0 ∈ s.books, b0.isbn = b.isbn) → createBook s b = none)
  ∧ ((∃ b0 ∈ s.books, b0.id ≠ bid ∧ b0.isbn = nb.isbn) → updateBook s bid nb = none)
  ∧ (List.Pairwise (fun x y => x.isbn ≠ y.isbn) s.books →
      createBook s b = some s2 →
      List.Pairwise (fun x y => x.isbn ≠ y.isbn) s2.books) := by
  refine ⟨?_, ?_, ?_⟩
  · rintro ⟨b0, hm, he⟩
    have h : s.books.any (fun b0 => b0.isbn == b.isbn && some b0.id != none) = true :=
      List.any_eq_true.mpr ⟨b0, hm, by simp [he]⟩
    simp [createBook, bookValid, h]
  · rintro ⟨b0, hm, hne, he⟩
    have h : s.books.any (fun b0 => b0.isbn == nb.isbn && some b0.id != some bid) = true :=
      List.any_eq_true.mpr ⟨b0, hm, by simp [he, hne]⟩
    simp [updateBook, bookValid, h]
  · intro hd h
    unfold createBook at h
    split at h
    · next hv =>
        cases h
        simp only [List.pairwise_append]
        refine ⟨hd, by simp, ?_⟩
        intro x hx y hy
        simp only [List.mem_singleton] at hy
        subst hy
        simp only [bookValid, Bool.and_eq_true, Bool.not_eq_true'] at hv
        have hfalse := hv.2
        rw [List.any_eq_false] at hfalse
        have hx2 := hfalse x hx
        simp at hx2
        exact hx2
    · exact absurd h (by simp)

/-- Witness for C5: a duplicate isbn is rejected on create and on update —
the inputs are otherwise fully valid, so the duplicate alone is decisive —
and a successful create with a fresh isbn keeps stored isbns distinct. -/
theorem isbn_unique_validation_witness :
    createBook { genres := [{ id := 1, name := "G" }],
                 books := [{ id := 1, title := "A", summary := "S",
                             isbn := "1111111111111", genre := [1] }] }
        { id := 2, title := "B", summary := "S", isbn := "1111111111111", genre := [1] } = none
  ∧ updateBook { genres := [{ id := 1, name := "G" }],
                 books := [{ id := 1, title := "A", summary := "S",
                             isbn := "1111111111111", genre := [1] }] } 2
        { id := 2, title := "B", summary := "S", isbn := "1111111111111", genre := [1] } = none
  ∧ List.Pairwise (fun x y : Book => x.isbn ≠ y.isbn)
      ({ genres := [{ id := 1, name := "G" }],
         books := [{ id := 1, title := "A", summary := "S",
                     isbn := "1111111111111", genre := [1] },
                   { id := 2, title := "B", summary := "S",
                     isbn := "2222222222222", genre := [1] }] } : CatalogState).books := by
  refine ⟨?_, ?_, ?_⟩
  · exact (isbn_unique_validation
      { genres := [{ id := 1, name := "G" }],
        books := [{ id := 1, title := "A", summary := "S",
                    isbn := "1111111111111", genre := [1] }] }
      { id := 2, title := "B", summary := "S", isbn := "1111111111111", genre := [1] }
      { id := 2, title := "B", summary := "S", isbn := "1111111111111", genre := [1] } 2 {}).1
      ⟨{ id := 1, title := "A", summary := "S", isbn := "1111111111111", genre := [1] },
        by decide, rfl⟩
  · exact (isbn_unique_validation
      { genres := [{ id := 1, name := "G" }],
        books := [{ id := 1, title := "A", summary := "S",
                    isbn := "1111111111111", genre := [1] }] }
      { id := 2, title := "B", summary := "S", isbn := "1111111111111", genre := [1] }
      { id := 2, title := "B", summary := "S", isbn := "1111111111111", genre := [1] } 2 {}).2.1
      ⟨{ id := 1, title := "A", summary := "S", isbn := "1111111111111", genre := [1] },
        by decide, by decide, rfl⟩
  · exact (isbn_unique_validation
      { genres := [{ id := 1, name := "G" }],
        books := [{ id := 1, title := "A", summary := "S",
                    isbn := "1111111111111", genre := [1] }] }
      { id := 2, title := "B", summary := "S", isbn := "2222222222222", genre := [1] }
      { id := 2, title := "B", summary := "S", isbn := "2222222222222", genre := [1] } 2
      { genres := [{ id := 1, name := "G" }],
        books := [{ id := 1, title := "A", summary := "S",
                    isbn := "1111111111111", genre := [1] },
                  { id := 2, title := "B", summary := "S",
                    isbn := "2222222222222", genre := [1] }] }).2.2
      (by decide) (by decide)

/-- Claim C6: the display strings are the name for a Genre or Language, the
title for a Book, "last_name, first_name" for an Author, and
"id (book title)" — the instance id followed by the referenced Book's title
in parentheses — for a BookInstance. -/
theorem str_representations (g : Genre) (l : Language) (b : Book) (a : Author)
    (s : CatalogState) (bi : BookInstance) (bk : Book) :
    Genre.str g = g.name
  ∧ Language.str l = l.name
  ∧ Book.str b = b.title
  ∧ Author.str a = a.last_name ++ ", " ++ a.first_name
  ∧ (findBook s bi.book = some bk →
      BookInstance.str s bi = some (bi.id ++ " (" ++ bk.title ++ ")")) := by
  refine ⟨rfl, rfl, rfl, rfl, ?_⟩
  intro h
  simp [BookInstance.str, h]

/-- Witness for C6: the copy with id "u1" of the book titled "T" displays
as "u1 (T)". -/
theorem str_representations_witness :
    BookInstance.str { books := [{ id := 1, title := "T", isbn := "1111111111111" }] }
        { id := "u1", book := 1 } = some ("u1" ++ " (" ++ "T" ++ ")") :=
  (str_representations { id := 1, name := "G" } { id := 1, name := "L" }
      { id := 1, title := "T", isbn := "1111111111111" }
      { id := 1, first_name := "F", last_name := "N" }
      { books := [{ id := 1, title := "T", isbn := "1111111111111" }] }
      { id := "u1", book := 1 }
      { id := 1, title := "T", isbn := "1111111111111" }).2.2.2.2 (by decide)

/-- Claim C7: listing returns a permutation of the stored rows ordered, for
Books, primarily by title and secondarily by the author relation — which
follows `Author.Meta.ordering`, i.e. the referenced author's last_name then
first_name (books with no resolvable author key precede keyed ones); for
Authors, by last_name then first_name; for BookInstances, by due_back
ascending (rows with no due date precede dated ones). -/
theorem listing_ordering (s : CatalogState) :
    (List.Pairwise (fun a b : Book =>
        a.title < b.title ∨ (a.title = b.title ∧
          (authorOrderKey s a = none ∨
            ∃ p q, authorOrderKey s a = some p ∧ authorOrderKey s b = some q ∧
              (p.1 < q.1 ∨ (p.1 = q.1 ∧ p.2 ≤ q.2)))))
        (listBooks s)
      ∧ (listBooks s).Perm s.books)
  ∧ (List.Pairwise (fun a b : Author =>
        a.last_name < b.last_name ∨
          (a.last_name = b.last_name ∧ a.first_name ≤ b.first_name))
        (listAuthors s)
      ∧ (listAuthors s).Perm s.authors)
  ∧ (List.Pairwise (fun a b : BookInstance =>
        a.due_back = none ∨
          ∃ x y, a.due_back = some x ∧ b.due_back = some y ∧ x ≤ y)
        (listBookInstances s)
      ∧ (listBookInstances s).Perm s.instances) := by
  simp only [listBooks, listAuthors, listBookInstances]
  refine ⟨⟨?_, List.mergeSort_perm _ _⟩, ⟨?_, List.mergeSort_perm _ _⟩,
    ⟨?_, List.mergeSort_perm _ _⟩⟩
  · have h := List.sorted_mergeSort (bookLE_trans s) (bookLE_total s) s.books
    refine h.imp ?_
    intro a b hab
    simp only [bookLE, Bool.or_eq_true, decide_eq_true_eq, Bool.and_eq_true,
      beq_iff_eq] at hab
    rcases hab with h1 | ⟨h1, h2⟩
    · exact Or.inl h1
    · exact Or.inr ⟨h1, (optNameLE_iff _ _).mp h2⟩
  · have h := List.sorted_mergeSort authorLE_trans authorLE_total s.authors
    refine h.imp ?_
    intro a b hab
    simp only [authorLE, Bool.or_eq_true, decide_eq_true_eq, Bool.and_eq_true,
      beq_iff_eq] at hab
    exact hab
  · have h := List.sorted_mergeSort instanceLE_trans instanceLE_total s.instances
    refine h.imp ?_
    intro a b hab
    simp only [instanceLE] at hab
    exact (optDateLE_iff _ _).mp hab

/-- Counterexample for C8: because `status` is declared `blank=True`, the
empty string passes the field's validation although it is not one of the four
declared choice keys, so the status field is not restricted to exactly the
four values. -/
theorem status_blank_passes_validation :
    validStatusField "" = true ∧ LOAN_STATUS.contains "" = false := by
  decide

/-- Claim C8 (amended): `status` holds one of the four declared values 'm'
(Maintenance), 'o' (On loan), 'a' (Available), 'r' (Reserved) or — because
the field is declared `blank=True` — the empty string; a BookInstance created
without an explicit status gets the declared default 'm', one of the four. -/
theorem status_choices_blank_default (st : String) :
    (validStatusField st = true ↔ st ∈ LOAN_STATUS ∨ st = "")
  ∧ (∀ uid bk imp dd br, (newBookInstance uid bk imp dd br none).status = "m")
  ∧ defaultStatus ∈ LOAN_STATUS := by
  refine ⟨?_, fun uid bk imp dd br => rfl, by decide⟩
  simp [validStatusField, LOAN_STATUS]

/-- Counterexample for C9: with every required field filled — nonempty
title and summary, a genre selected from an existing Genre row — a Book
whose isbn is the 10-character string "0451450523" passes validation and is
stored, because `max_length=13` only bounds the isbn's length from above;
the stored isbn does not have exactly 13 characters. -/
theorem short_isbn_accepted :
    createBook { genres := [{ id := 1, name := "Fantasy" }] }
        { id := 1, title := "Mort", summary := "A Discworld novel",
          isbn := "0451450523", genre := [1] } =
      some { genres := [{ id := 1, name := "Fantasy" }],
             books := [{ id := 1, title := "Mort", summary := "A Discworld novel",
                         isbn := "0451450523", genre := [1] }] }
  ∧ ("0451450523" : String).length = 10 := by
  exact ⟨by decide, by decide⟩

/-- Claim C9 (amended): every stored Book's isbn has at most 13 characters —
the bound the declared `max_length=13` enforces; the bound is preserved by
Book creation and by Book update. -/
theorem isbn_at_most_13 (s : CatalogState) (bid : Nat) (b : Book)
    (s2 s3 : CatalogState) :
    (s.books.all (fun b0 => decide (b0.isbn.length ≤ 13)) = true →
      createBook s b = some s2 →
      s2.books.all (fun b0 => decide (b0.isbn.length ≤ 13)) = true)
  ∧ (s.books.all (fun b0 => decide (b0.isbn.length ≤ 13)) = true →
      updateBook s bid b = some s3 →
      s3.books.all (fun b0 => decide (b0.isbn.length ≤ 13)) = true) := by
  constructor
  · intro hall h
    unfold createBook at h
    split at h
    · next hv =>
        cases h
        simp only [bookValid, Bool.and_eq_true] at hv
        have hlen := hv.1.2
        simp only [validIsbnField] at hlen
        simp [List.all_append, hall, hlen]
    · exact absurd h (by simp)
  · intro hall h
    unfold updateBook at h
    split at h
    · next hv =>
        cases h
        simp only [bookValid, Bool.and_eq_true] at hv
        have hlen := hv.1.2
        simp only [validIsbnField] at hlen
        simp only [List.all_map]
        rw [List.all_eq_true]
        intro b0 hb0
        rw [List.all_eq_true] at hall
        have h0 := hall b0 hb0
        by_cases hid : (b0.id == bid) = true
        · simp [Function.comp, hid, hlen]
        · simp only [Function.comp, hid, if_false, Bool.false_eq_true] at *
          simpa using h0
    · exact absurd h (by simp)

/-- Witness for C9 (amended): creating and updating with a 13-character isbn
keeps every stored isbn within 13 characters. -/
theorem isbn_at_most_13_witness :
    ({ genres := [{ id := 1, name := "G" }],
       books := [{ id := 1, title := "T", summary := "S",
                   isbn := "9781851244249", genre := [1] }] } : CatalogState).books.all
        (fun b0 => decide (b0.isbn.length ≤ 13)) = true
  ∧ ({ genres := [{ id := 1, name := "G" }],
       books := [{ id := 1, title := "U", summary := "S",
                   isbn := "9780000000002", genre := [1] }] } : CatalogState).books.all
        (fun b0 => decide (b0.isbn.length ≤ 13)) = true := by
  constructor
  · exact (isbn_at_most_13 { genres := [{ id := 1, name := "G" }] } 0
      { id := 1, title := "T", summary := "S", isbn := "9781851244249", genre := [1] }
      { genres := [{ id := 1, name := "G" }],
        books := [{ id := 1, title := "T", summary := "S",
                    isbn := "9781851244249", genre := [1] }] } {}).1
      (by decide) (by decide)
  · exact (isbn_at_most_13
      { genres := [{ id := 1, name := "G" }],
        books := [{ id := 1, title := "T", summary := "S",
                    isbn := "9781851244249", genre := [1] }] } 1
      { id := 1, title := "U", summary := "S", isbn := "9780000000002", genre := [1] } {}
      { genres := [{ id := 1, name := "G" }],
        books := [{ id := 1, title := "U", summary := "S",
                    isbn := "9780000000002", genre := [1] }] }).2
      (by decide) (by decide)

end Catalog
